import Mathlib

/-!
Shallow embedding of the AutoMate AI client-side session controller
(`src/App.tsx`), the analyze-response handling of
`src/services/geminiService.ts`, and the local history store
(`storageService`), together with theorems settling the specification
claims about them.

Modelling conventions:
* React `useState` fields of the `App` component become fields of the
  `Session` structure; each handler becomes a pure function
  `Session → ... → Session` applying the same `set*` updates in source
  order.
* The browser `MediaStream` handle is modelled by a `Bool` (held / not
  held); `videoRef`/`canvasRef` availability and the 2d-context lookup
  become the boolean parameters `refsOk` and `ctxOk`.
* The asynchronous, fallible external calls `analyzeScreenImage` and
  `generateGuideForSuggestion` are oracles passed in as
  `Except Unit _` values (`.error` = the promise rejected); an
  analyze/elaborate cycle is modelled as one atomic step, which is
  faithful to the single-threaded event-loop semantics of the source.
* `localStorage` under the single key `automate_ai_history` is modelled
  as `Option (List HistoryItem)` (`none` = key absent); JSON
  serialization round-trips records unchanged and is abstracted away.
-/

/-- `AppState` enum from `src/types.ts`. -/
inductive AppState where
  | IDLE
  | RECORDING
  | ANALYZING
  | SUGGESTING
  | VIEWING_GUIDE
  | GUIDE_LOADING
  | HISTORY
deriving DecidableEq, Repr

/-- `AutomationSuggestion` interface from `src/types.ts`. -/
structure AutomationSuggestion where
  id : String
  title : String
  estimatedTimeSavings : String
  tools : List String
  description : String
  relevanceScore : Int
deriving DecidableEq, Repr

/-- `GuideStep` interface from `src/types.ts`; the optional fields become
`Option`. -/
structure GuideStep where
  stepNumber : Int
  instruction : String
  selectorDescription : Option String := none
  codeSnippet : Option String := none
  tip : Option String := none
deriving DecidableEq, Repr

/-- `DetailedGuide` interface from `src/types.ts`. -/
structure DetailedGuide where
  suggestionId : String
  title : String
  prerequisites : List String
  steps : List GuideStep
deriving DecidableEq, Repr

/-- `HistoryItem` interface from `src/types.ts`. -/
structure HistoryItem where
  id : String
  guide : DetailedGuide
  timestamp : Nat
deriving DecidableEq, Repr

/-- The `useState` fields of the `App` component in `src/App.tsx`:
`appState`, `stream` (presence of the `MediaStream`), `suggestions`,
`selectedGuide`, `errorMsg`, `lastImage`, `previousState`, `isAutoScan`
and `isAnalyzing`. -/
structure Session where
  appState : AppState
  stream : Bool
  suggestions : List AutomationSuggestion
  selectedGuide : Option DetailedGuide
  errorMsg : Option String
  lastImage : Option String
  previousState : AppState
  isAutoScan : Bool
  isAnalyzing : Bool
deriving DecidableEq, Repr

/-- The initial state of every `useState` hook in `src/App.tsx`. -/
def initialSession : Session :=
  { appState := .IDLE
    stream := false
    suggestions := []
    selectedGuide := none
    errorMsg := none
    lastImage := none
    previousState := .IDLE
    isAutoScan := false
    isAnalyzing := false }

/-- `handleStopStream` from `src/App.tsx` (lines 33-52): stop the tracks
and drop the stream handle, switch auto-scan off, then either reset to
`IDLE` (no accumulated content) or redirect `RECORDING`/`ANALYZING` to
`SUGGESTING`, leaving any other state in place. -/
def handleStopStream (s : Session) : Session :=
  let s1 := if s.stream then { s with stream := false } else s
  let s2 := { s1 with isAutoScan := false }
  let hasContent :=
    decide (s2.suggestions.length > 0) || s2.selectedGuide.isSome ||
      decide (s2.appState = .HISTORY)
  if !hasContent then
    { s2 with appState := .IDLE }
  else if s2.appState = .RECORDING ∨ s2.appState = .ANALYZING then
    { s2 with appState := .SUGGESTING }
  else
    s2

/-- `handleReset` from `src/App.tsx`: drop the stream, disable auto-scan,
return to `IDLE` and clear suggestions, the selected guide and the last
snapshot (`errorMsg` is left in place). -/
def handleReset (s : Session) : Session :=
  let s1 := if s.stream then { s with stream := false } else s
  { s1 with
    isAutoScan := false
    appState := .IDLE
    suggestions := []
    selectedGuide := none
    lastImage := none }

/-- Success path of `startScreenShare` from `src/App.tsx`: clear the
error, store the acquired stream, enter `RECORDING` and set auto-scan
to the requested mode. -/
def startScreenShareSuccess (s : Session) (autoStart : Bool) : Session :=
  { s with
    errorMsg := none
    stream := true
    appState := .RECORDING
    isAutoScan := autoStart }

/-- `handleToggleHistory` from `src/App.tsx` (lines 232-241). -/
def handleToggleHistory (s : Session) : Session :=
  if s.appState = .HISTORY then
    { s with
      appState := if s.previousState ≠ .HISTORY then s.previousState else .IDLE }
  else
    { s with previousState := s.appState, appState := .HISTORY }

/-- The arming condition of the auto-scan `useEffect` in `src/App.tsx`
(lines 199-208): the interval is created exactly when `isAutoScan` is
on, a stream is held, and the state is `RECORDING` or `SUGGESTING`. -/
def autoScanArmed (s : Session) : Bool :=
  s.isAutoScan && s.stream &&
    (decide (s.appState = .RECORDING) || decide (s.appState = .SUGGESTING))

/-- The fixed `setInterval` delay of the auto-scan effect, in
milliseconds. -/
def autoScanIntervalMs : Nat := 5000

/-- The descending-relevance ordering used by the comparator
`(a, b) => b.relevanceScore - a.relevanceScore` in
`src/services/geminiService.ts`. -/
def suggestionOrder (a b : AutomationSuggestion) : Prop :=
  b.relevanceScore ≤ a.relevanceScore

instance : DecidableRel suggestionOrder :=
  fun a b => inferInstanceAs (Decidable (b.relevanceScore ≤ a.relevanceScore))

instance : IsTotal AutomationSuggestion suggestionOrder :=
  ⟨fun a b => le_total b.relevanceScore a.relevanceScore⟩

instance : IsTrans AutomationSuggestion suggestionOrder :=
  ⟨fun _ _ _ h1 h2 => le_trans h2 h1⟩

/-- Result handling of `analyzeScreenImage` in
`src/services/geminiService.ts` (lines 72-82): an absent or empty
response text yields `[]`, a response that fails to parse as a
suggestion array yields `[]`, and a parsed array is sorted descending
by `relevanceScore`.  `responseText` is the raw `response.text`
(`none` = undefined) and `parsed` the outcome of `JSON.parse`
(`none` = parse throws). -/
def analyzeScreenImageResult (responseText : Option String)
    (parsed : Option (List AutomationSuggestion)) :
    List AutomationSuggestion :=
  match responseText with
  | none => []
  | some t =>
    if t = "" then []
    else
      match parsed with
      | none => []
      | some suggestions => List.insertionSort suggestionOrder suggestions

/-- Error message set by the manual analysis-failure branch of
`captureAndAnalyze`. -/
def analysisFailedMsg : String := "AI Analysis failed. Please try again."

/-- Error message set when the automatic elaboration of the top manual
suggestion fails in `captureAndAnalyze`. -/
def autoGuideFailedMsg : String :=
  "Could not auto-generate guide. Please select a suggestion from the list."

/-- Error message set when guide generation fails in
`handleSelectSuggestion`. -/
def guideFailedMsg : String := "Could not generate guide. Please try again."

/-- Outcome of one `captureAndAnalyze` invocation: the final session,
whether an `analyzeScreenImage` call was actually issued, and which
suggestion (if any) was passed to `generateGuideForSuggestion`. -/
structure ScanResult where
  session : Session
  analyzeIssued : Bool
  elaborated : Option AutomationSuggestion
deriving DecidableEq, Repr

/-- The session at the moment `captureAndAnalyze` issues its
`analyzeScreenImage` call: `setIsAnalyzing(true)` has run, the manual
path has entered `ANALYZING`, and `setLastImage` has stored the
snapshot. -/
def preAnalyzeSession (s : Session) (isAuto : Bool) (image : String) :
    Session :=
  let s1 := { s with isAnalyzing := true }
  let s2 := if !isAuto then { s1 with appState := .ANALYZING } else s1
  { s2 with lastImage := some image }

/-- `captureAndAnalyze` from `src/App.tsx` (lines 125-196), as one
atomic event-loop step.  `refsOk` models `videoRef.current` and
`canvasRef.current` both being non-null, `ctxOk` models
`canvas.getContext("2d")` returning a context, `image` the
`canvas.toDataURL` encoding, and `analyzeResult` / `guideResult` the
settled outcomes of the two external calls.  In the auto branch the
`appState` guard reads the value closed over at callback creation,
i.e. the entry state `s.appState` (the auto path performs no state
update before the check).  The `saveGuideToHistory` side effect on
success is modelled separately by `saveGuideToHistory` below. -/
def captureAndAnalyze (s : Session) (isAuto refsOk ctxOk : Bool)
    (image : String)
    (analyzeResult : Except Unit (List AutomationSuggestion))
    (guideResult : Except Unit DetailedGuide) : ScanResult :=
  if !refsOk then ⟨s, false, none⟩
  else if s.isAnalyzing then ⟨s, false, none⟩
  else
    let s1 := { s with isAnalyzing := true }
    let s2 := if !isAuto then { s1 with appState := .ANALYZING } else s1
    if !ctxOk then ⟨{ s2 with isAnalyzing := false }, false, none⟩
    else
      let s3 := preAnalyzeSession s isAuto image
      match analyzeResult with
      | .error _ =>
        let s4 :=
          if !isAuto then
            { s3 with errorMsg := some analysisFailedMsg, appState := .RECORDING }
          else s3
        ⟨{ s4 with isAnalyzing := false }, true, none⟩
      | .ok results =>
        let s4 := { s3 with suggestions := results }
        if !isAuto then
          match results with
          | [] =>
            ⟨{ s4 with appState := .SUGGESTING, isAnalyzing := false }, true, none⟩
          | best :: _ =>
            let s5 := { s4 with appState := .GUIDE_LOADING }
            match guideResult with
            | .ok guide =>
              ⟨{ s5 with
                  selectedGuide := some guide
                  appState := .VIEWING_GUIDE
                  isAnalyzing := false }, true, some best⟩
            | .error _ =>
              ⟨{ s5 with
                  appState := .SUGGESTING
                  errorMsg := some autoGuideFailedMsg
                  isAnalyzing := false }, true, some best⟩
        else
          let s5 :=
            if decide (results.length > 0) &&
                (decide (s.appState = .RECORDING) ||
                  decide (s.appState = .SUGGESTING)) then
              { s4 with appState := .SUGGESTING }
            else s4
          ⟨{ s5 with isAnalyzing := false }, true, none⟩

/-- `handleSelectSuggestion` from `src/App.tsx` (lines 211-225), as one
atomic step.  Returns the new session and whether a
`generateGuideForSuggestion` call was issued.  Note the source checks
only `lastImage`; it neither reads nor writes `isAnalyzing`. -/
def handleSelectSuggestion (s : Session)
    (guideResult : Except Unit DetailedGuide) : Session × Bool :=
  match s.lastImage with
  | none => (s, false)
  | some _ =>
    let s1 := { s with appState := .GUIDE_LOADING }
    match guideResult with
    | .ok guide =>
      ({ s1 with selectedGuide := some guide, appState := .VIEWING_GUIDE }, true)
    | .error _ =>
      ({ s1 with errorMsg := some guideFailedMsg, appState := .SUGGESTING }, true)

/-- `saveGuideToHistory` from `storageService` (src/unnamed/part_000,
lines 10-34): read the stored list (absent key = `[]`), unshift a fresh
`HistoryItem`, truncate to the 50 most recent, and write back.
`newId` stands for `crypto.randomUUID()` and `now` for `Date.now()`. -/
def saveGuideToHistory (store : Option (List HistoryItem)) (newId : String)
    (now : Nat) (guide : DetailedGuide) : Option (List HistoryItem) :=
  let history := store.getD []
  let history1 := ({ id := newId, guide := guide, timestamp := now } : HistoryItem) :: history
  let history2 := if history1.length > 50 then history1.take 50 else history1
  some history2

/-- `getHistory` from `storageService` (src/unnamed/part_000, lines
39-47): return the stored list, or `[]` when the key is absent. -/
def getHistory (store : Option (List HistoryItem)) : List HistoryItem :=
  store.getD []

/-- `clearHistory` from `storageService`: remove the stored key. -/
def clearHistory (_store : Option (List HistoryItem)) :
    Option (List HistoryItem) :=
  none

/-- Fold saving `n` guides sequentially into an initially absent store,
numbering ids and timestamps `0, 1, ...` in save order. -/
def saveSequentially (n : Nat) (guide : DetailedGuide) :
    Option (List HistoryItem) :=
  (List.range n).foldl (fun store i => saveGuideToHistory store (toString i) i guide) none

/-- C6: an analyze response whose text is absent or empty, or whose text
fails to parse as a suggestion array, makes `analyzeScreenImage` return
zero suggestions rather than raise an error. -/
theorem c6_empty_or_unparsable_response_yields_no_suggestions
    (parsed : Option (List AutomationSuggestion)) (t : String) :
    analyzeScreenImageResult none parsed = [] ∧
    analyzeScreenImageResult (some "") parsed = [] ∧
    analyzeScreenImageResult (some t) none = [] := by
  refine ⟨rfl, by simp [analyzeScreenImageResult], ?_⟩
  by_cases h : t = "" <;> simp [analyzeScreenImageResult, h]

/-- C7: the history toggle is a stack of depth one: opening from any
non-`HISTORY` state records exactly that state and enters `HISTORY`,
toggling twice returns to the starting state, and closing restores the
recorded prior state unless it was itself `HISTORY`, in which case it
falls back to `IDLE`. -/
theorem c7_history_toggle_depth_one (s : Session) :
    (s.appState ≠ .HISTORY →
      (handleToggleHistory s).previousState = s.appState ∧
      (handleToggleHistory s).appState = .HISTORY ∧
      (handleToggleHistory (handleToggleHistory s)).appState = s.appState) ∧
    (s.appState = .HISTORY →
      (s.previousState ≠ .HISTORY →
        (handleToggleHistory s).appState = s.previousState) ∧
      (s.previousState = .HISTORY →
        (handleToggleHistory s).appState = .IDLE)) := by
  by_cases h : s.appState = .HISTORY
  · refine ⟨fun hc => absurd h hc, fun _ => ⟨fun hp => ?_, fun hp => ?_⟩⟩ <;>
      simp [handleToggleHistory, h, hp]
  · refine ⟨fun _ => ⟨?_, ?_, ?_⟩, fun hc => absurd hc h⟩ <;>
      simp [handleToggleHistory, h]

/-- C7 witness: opening history from `SUGGESTING` and closing it returns
to `SUGGESTING`; opening from `IDLE` and closing returns to `IDLE`. -/
theorem c7_history_toggle_depth_one_witness :
    (handleToggleHistory (handleToggleHistory
        { initialSession with appState := .SUGGESTING })).appState =
      AppState.SUGGESTING ∧
    (handleToggleHistory (handleToggleHistory initialSession)).appState =
      AppState.IDLE :=
  ⟨((c7_history_toggle_depth_one
      { initialSession with appState := .SUGGESTING }).1 (by decide)).2.2,
   ((c7_history_toggle_depth_one initialSession).1 (by decide)).2.2⟩

/-- One unfolding step of `saveSequentially`. -/
theorem saveSequentially_succ (n : Nat) (g : DetailedGuide) :
    saveSequentially (n + 1) g =
      saveGuideToHistory (saveSequentially n g) (toString n) n g := by
  simp [saveSequentially, List.range_succ]

/-- A save always lists as the fresh record consed onto the previous
history, truncated to 50. -/
theorem getHistory_save (store : Option (List HistoryItem)) (newId : String)
    (now : Nat) (g : DetailedGuide) :
    getHistory (saveGuideToHistory store newId now g) =
      (({ id := newId, guide := g, timestamp := now } : HistoryItem) ::
        getHistory store).take 50 := by
  simp only [getHistory, saveGuideToHistory, Option.getD_some]
  split
  · rfl
  · rename_i hle
    rw [List.take_of_length_le (by omega)]

/-- After `n ≤ 50` sequential saves the stored timestamps are
`n-1, ..., 1, 0` (most-recent-first, nothing evicted yet). -/
theorem timestamps_after_saveSequentially (g : DetailedGuide) :
    ∀ n, n ≤ 50 →
      (getHistory (saveSequentially n g)).map HistoryItem.timestamp =
        (List.range n).reverse
  | 0, _ => by simp [saveSequentially, getHistory]
  | n + 1, h => by
    rw [saveSequentially_succ, getHistory_save, List.map_take, List.map_cons,
      timestamps_after_saveSequentially g n (by omega)]
    rw [List.take_of_length_le (by simp; omega)]
    simp [List.range_succ]

/-- C8: every save prepends the fresh record and truncates to the 50
most recent, so the store never exceeds 50 records; saving 51 guides
sequentially leaves exactly 50 records, most-recent-first, with the
first-saved (oldest) record evicted (timestamps run `50, 49, ..., 1`;
the timestamp-0 record is gone). -/
theorem c8_history_bounded_50 (store : Option (List HistoryItem))
    (newId : String) (now : Nat) (g : DetailedGuide) :
    getHistory (saveGuideToHistory store newId now g) =
      (({ id := newId, guide := g, timestamp := now } : HistoryItem) ::
        getHistory store).take 50 ∧
    (getHistory (saveGuideToHistory store newId now g)).length ≤ 50 ∧
    (getHistory (saveGuideToHistory store newId now g)).head? =
      some { id := newId, guide := g, timestamp := now } ∧
    (getHistory (saveSequentially 51 g)).length = 50 ∧
    (getHistory (saveSequentially 51 g)).map HistoryItem.timestamp =
      ((List.range 51).drop 1).reverse := by
  have hsave := getHistory_save store newId now g
  have hmap : (getHistory (saveSequentially 51 g)).map HistoryItem.timestamp =
      ((List.range 51).drop 1).reverse := by
    rw [show (51 : Nat) = 50 + 1 from rfl, saveSequentially_succ, getHistory_save,
      List.map_take, List.map_cons, timestamps_after_saveSequentially g 50 (by omega)]
    show List.take 50 ((50 : Nat) :: (List.range 50).reverse) =
      (List.drop 1 (List.range (50 + 1))).reverse
    decide
  refine ⟨hsave, ?_, ?_, ?_, hmap⟩
  · rw [hsave]
    simp
  · rw [hsave, show (50 : Nat) = 49 + 1 from rfl, List.take_succ_cons]
    rfl
  · have h1 : (getHistory (saveSequentially 51 g)).length =
        ((getHistory (saveSequentially 51 g)).map HistoryItem.timestamp).length := by
      simp
    rw [h1, hmap]
    decide

/-- C9: a guide round-trips through the history store: after a save,
the listed history contains a record whose guide carries exactly the
saved steps — identical `stepNumber` ordering, and each optional field
(`selectorDescription`, `codeSnippet`, `tip`) present or absent exactly
as saved. -/
theorem c9_guide_steps_round_trip (store : Option (List HistoryItem))
    (newId : String) (now : Nat) (g : DetailedGuide) :
    ∃ item,
      item ∈ getHistory (saveGuideToHistory store newId now g) ∧
      item.guide.steps = g.steps ∧
      item.guide.steps.map GuideStep.stepNumber =
        g.steps.map GuideStep.stepNumber ∧
      item.guide.steps.map GuideStep.selectorDescription =
        g.steps.map GuideStep.selectorDescription ∧
      item.guide.steps.map GuideStep.codeSnippet =
        g.steps.map GuideStep.codeSnippet ∧
      item.guide.steps.map GuideStep.tip = g.steps.map GuideStep.tip := by
  refine ⟨{ id := newId, guide := g, timestamp := now }, ?_, rfl, rfl, rfl, rfl, rfl⟩
  simp only [getHistory, saveGuideToHistory, Option.getD_some]
  split
  · rw [show (50 : Nat) = 49 + 1 from rfl, List.take_succ_cons]
    exact List.mem_cons_self _ _
  · exact List.mem_cons_self _ _

/-- C2: the auto-scan interval is armed exactly when `isAutoScan` is on,
a stream is held, and the state is `RECORDING` or `SUGGESTING`; the
tick period is the fixed 5000 ms, and an armed timer implies the state
is none of `ANALYZING`, `GUIDE_LOADING`, `VIEWING_GUIDE`, `HISTORY`. -/
theorem c2_auto_scan_gating (s : Session) :
    (autoScanArmed s = true ↔
      s.isAutoScan = true ∧ s.stream = true ∧
        (s.appState = .RECORDING ∨ s.appState = .SUGGESTING)) ∧
    autoScanIntervalMs = 5000 ∧
    (autoScanArmed s = true →
      s.appState ≠ .ANALYZING ∧ s.appState ≠ .GUIDE_LOADING ∧
        s.appState ≠ .VIEWING_GUIDE ∧ s.appState ≠ .HISTORY) := by
  have harm : autoScanArmed s = true ↔
      s.isAutoScan = true ∧ s.stream = true ∧
        (s.appState = .RECORDING ∨ s.appState = .SUGGESTING) := by
    simp [autoScanArmed, and_assoc]
  refine ⟨harm, rfl, fun h => ?_⟩
  rcases (harm.mp h).2.2 with h1 | h1 <;> simp [h1]

/-- C2 witness: at a concrete armed session the timer is armed and the
state is not a blocked one; at a concrete `ANALYZING` session the
arming condition fails. -/
theorem c2_auto_scan_gating_witness :
    autoScanArmed { initialSession with isAutoScan := true, stream := true, appState := .RECORDING } = true ∧
    ({ initialSession with isAutoScan := true, stream := true, appState := .RECORDING } : Session).appState ≠ .ANALYZING ∧
    autoScanArmed { initialSession with isAutoScan := true, stream := true, appState := .ANALYZING } = false :=
  ⟨(c2_auto_scan_gating _).1.mpr ⟨rfl, rfl, Or.inl rfl⟩,
   ((c2_auto_scan_gating _).2.2 (by decide)).1,
   by decide⟩

/-- C3: stopping the capture (the same handler serves the explicit Stop
button and external track termination) always drops the stream handle
and disables auto-scan, never discards suggestions, the selected guide
or the last snapshot; with content present (non-empty suggestions, a
selected guide, or history open) an active/analyzing state lands in
`SUGGESTING`, and with no content at all the state lands in `IDLE`. -/
theorem c3_stop_stream_lands_correctly (s : Session) :
    (handleStopStream s).stream = false ∧
    (handleStopStream s).isAutoScan = false ∧
    (handleStopStream s).suggestions = s.suggestions ∧
    (handleStopStream s).selectedGuide = s.selectedGuide ∧
    (handleStopStream s).lastImage = s.lastImage ∧
    ((s.suggestions ≠ [] ∨ s.selectedGuide ≠ none ∨ s.appState = .HISTORY) →
      (s.appState = .RECORDING ∨ s.appState = .ANALYZING) →
      (handleStopStream s).appState = .SUGGESTING) ∧
    (s.suggestions = [] → s.selectedGuide = none → s.appState ≠ .HISTORY →
      (handleStopStream s).appState = .IDLE) := by
  obtain ⟨st, strm, sug, gd, em, li, ps, ias, ian⟩ := s
  cases strm <;> rcases gd with _ | g <;> rcases sug with _ | ⟨a, rest⟩ <;>
    cases st <;> simp [handleStopStream]

/-- C3 witness: stopping while `RECORDING` with one suggestion lands in
`SUGGESTING` with auto-scan off; stopping while `RECORDING` with no
content lands in `IDLE`. -/
theorem c3_stop_stream_lands_correctly_witness :
    (handleStopStream { initialSession with appState := .RECORDING, stream := true, isAutoScan := true, suggestions := [⟨"s1", "T", "1h", [], "d", 95⟩] }).appState = AppState.SUGGESTING ∧
    (handleStopStream { initialSession with appState := .RECORDING, stream := true, isAutoScan := true, suggestions := [⟨"s1", "T", "1h", [], "d", 95⟩] }).isAutoScan = false ∧
    (handleStopStream { initialSession with appState := .RECORDING, stream := true }).appState = AppState.IDLE :=
  ⟨(c3_stop_stream_lands_correctly _).2.2.2.2.2.1 (by decide) (by decide),
   (c3_stop_stream_lands_correctly { initialSession with appState := .RECORDING, stream := true, isAutoScan := true, suggestions := [⟨"s1", "T", "1h", [], "d", 95⟩] }).2.1,
   (c3_stop_stream_lands_correctly _).2.2.2.2.2.2 (by decide) (by decide) (by decide)⟩

/-- C10 counterexample: with the (unreachable-in-practice but
type-correct) session in `VIEWING_GUIDE` holding no suggestions and no
selected guide, stopping the stream moves the state to `IDLE`, so the
state field is not left unchanged in every `VIEWING_GUIDE`
configuration. -/
theorem c10_stop_stream_viewing_guide_cex :
    (handleStopStream { initialSession with appState := .VIEWING_GUIDE, stream := true }).appState = AppState.IDLE ∧
    AppState.VIEWING_GUIDE ≠ AppState.IDLE := by
  decide

/-- C10 (amended): stopping the stream while in `HISTORY`, or while in
`VIEWING_GUIDE`, `SUGGESTING` or `GUIDE_LOADING` with content present
(non-empty suggestions or a selected guide), leaves the state field
unchanged; a post-stop state of `SUGGESTING` can only arise from
`RECORDING`, `ANALYZING` or `SUGGESTING`; and every field other than
the stream handle, `isAutoScan` and `appState` is untouched. -/
theorem c10_stop_stream_frame (s : Session) :
    (s.appState = .HISTORY → (handleStopStream s).appState = .HISTORY) ∧
    ((s.suggestions ≠ [] ∨ s.selectedGuide ≠ none) →
      (s.appState = .VIEWING_GUIDE → (handleStopStream s).appState = .VIEWING_GUIDE) ∧
      (s.appState = .SUGGESTING → (handleStopStream s).appState = .SUGGESTING) ∧
      (s.appState = .GUIDE_LOADING → (handleStopStream s).appState = .GUIDE_LOADING)) ∧
    ((handleStopStream s).appState = .SUGGESTING →
      s.appState = .RECORDING ∨ s.appState = .ANALYZING ∨ s.appState = .SUGGESTING) ∧
    (handleStopStream s).suggestions = s.suggestions ∧
    (handleStopStream s).selectedGuide = s.selectedGuide ∧
    (handleStopStream s).errorMsg = s.errorMsg ∧
    (handleStopStream s).lastImage = s.lastImage ∧
    (handleStopStream s).previousState = s.previousState ∧
    (handleStopStream s).isAnalyzing = s.isAnalyzing := by
  obtain ⟨st, strm, sug, gd, em, li, ps, ias, ian⟩ := s
  cases strm <;> rcases gd with _ | g <;> rcases sug with _ | ⟨a, rest⟩ <;>
    cases st <;> simp [handleStopStream]

/-- C10 witness: stopping in `VIEWING_GUIDE` with a selected guide keeps
the state `VIEWING_GUIDE`; stopping in `HISTORY` keeps `HISTORY`. -/
theorem c10_stop_stream_frame_witness :
    (handleStopStream { initialSession with appState := .VIEWING_GUIDE, stream := true, selectedGuide := some ⟨"s1", "G", [], [⟨1, "do", none, none, none⟩]⟩ }).appState = AppState.VIEWING_GUIDE ∧
    (handleStopStream { initialSession with appState := .HISTORY, stream := true }).appState = AppState.HISTORY :=
  ⟨((c10_stop_stream_frame _).2.1 (by decide)).1 (by decide),
   (c10_stop_stream_frame { initialSession with appState := .HISTORY, stream := true }).1 (by decide)⟩

/-- C1 counterexample: with the in-flight flag set (an auto analyze
outstanding) and a snapshot available, selecting a suggestion still
issues the elaborate call and mutates the session — the request is not
dropped, so the flag does not cover the select-suggestion
elaboration. -/
theorem c1_select_suggestion_not_gated_cex :
    ({ initialSession with appState := .SUGGESTING, stream := true, isAnalyzing := true, lastImage := some "img", suggestions := [⟨"s1", "T", "1h", [], "d", 95⟩] } : Session).isAnalyzing = true ∧
    (handleSelectSuggestion { initialSession with appState := .SUGGESTING, stream := true, isAnalyzing := true, lastImage := some "img", suggestions := [⟨"s1", "T", "1h", [], "d", 95⟩] } (.ok ⟨"s1", "G", [], [⟨1, "do", none, none, none⟩]⟩)).2 = true ∧
    (handleSelectSuggestion { initialSession with appState := .SUGGESTING, stream := true, isAnalyzing := true, lastImage := some "img", suggestions := [⟨"s1", "T", "1h", [], "d", 95⟩] } (.ok ⟨"s1", "G", [], [⟨1, "do", none, none, none⟩]⟩)).1 ≠ { initialSession with appState := .SUGGESTING, stream := true, isAnalyzing := true, lastImage := some "img", suggestions := [⟨"s1", "T", "1h", [], "d", 95⟩] } := by
  decide

/-- C1 (amended): within `captureAndAnalyze`, the in-flight flag is set
before the analyze call is issued (the issuing state
`preAnalyzeSession` carries `isAnalyzing = true`) and is cleared
unconditionally once the call settles, whatever the outcome of analyze
and elaborate; a scan request (manual or scheduled) arriving while the
flag is set returns the session unchanged with no analyze call issued;
the elaboration started by selecting a suggestion, however, is not
gated by the flag — it is issued whenever a snapshot is available. -/
theorem c1_inflight_flag_gates_scans (s : Session) (isAuto refsOk ctxOk : Bool)
    (img : String) (ar : Except Unit (List AutomationSuggestion))
    (gr : Except Unit DetailedGuide) :
    (s.isAnalyzing = true →
      captureAndAnalyze s isAuto refsOk ctxOk img ar gr =
        { session := s, analyzeIssued := false, elaborated := none }) ∧
    ((captureAndAnalyze s isAuto refsOk ctxOk img ar gr).analyzeIssued = true →
      (preAnalyzeSession s isAuto img).isAnalyzing = true ∧
      s.isAnalyzing = false ∧
      (captureAndAnalyze s isAuto refsOk ctxOk img ar gr).session.isAnalyzing = false) ∧
    ((handleSelectSuggestion s gr).2 = true ↔ s.lastImage ≠ none) := by
  refine ⟨fun h => ?_, fun h => ?_, ?_⟩
  · cases refsOk <;> simp [captureAndAnalyze, h]
  · obtain ⟨st, strm, sug, gd, em, li, ps, ias, ian⟩ := s
    cases ian
    · refine ⟨?_, rfl, ?_⟩
      · cases isAuto <;> simp [preAnalyzeSession]
      · rcases ar with _ | results
        · cases refsOk <;> cases ctxOk <;> cases isAuto <;>
            simp [captureAndAnalyze, preAnalyzeSession]
        · rcases results with _ | ⟨b, rest⟩ <;> rcases gr with _ | g <;>
            cases refsOk <;> cases ctxOk <;> cases isAuto <;>
            simp [captureAndAnalyze, preAnalyzeSession]
    · cases refsOk <;> simp [captureAndAnalyze] at h
  · rcases hl : s.lastImage with _ | img0
    · simp [handleSelectSuggestion, hl]
    · rcases gr with _ | g <;> simp [handleSelectSuggestion, hl]

/-- C1 witness: a scan arriving with the flag set is dropped unchanged;
a completed manual scan (analyze ok, elaborate ok) ends with the flag
cleared; selecting a suggestion with a snapshot available issues the
elaborate call. -/
theorem c1_inflight_flag_gates_scans_witness :
    captureAndAnalyze { initialSession with appState := .RECORDING, stream := true, isAnalyzing := true } false true true "i" (.ok []) (.error ()) =
      { session := { initialSession with appState := .RECORDING, stream := true, isAnalyzing := true }, analyzeIssued := false, elaborated := none } ∧
    (captureAndAnalyze { initialSession with appState := .RECORDING, stream := true } false true true "i" (.ok [⟨"s1", "T", "1h", [], "d", 95⟩]) (.ok ⟨"s1", "G", [], [⟨1, "do", none, none, none⟩]⟩)).session.isAnalyzing = false ∧
    (handleSelectSuggestion { initialSession with appState := .SUGGESTING, lastImage := some "i" } (.ok ⟨"s1", "G", [], [⟨1, "do", none, none, none⟩]⟩)).2 = true :=
  ⟨(c1_inflight_flag_gates_scans _ false true true "i" (.ok []) (.error ())).1 rfl,
   ((c1_inflight_flag_gates_scans { initialSession with appState := .RECORDING, stream := true } false true true "i" (.ok [⟨"s1", "T", "1h", [], "d", 95⟩]) (.ok ⟨"s1", "G", [], [⟨1, "do", none, none, none⟩]⟩)).2.1 (by decide)).2.2,
   (c1_inflight_flag_gates_scans { initialSession with appState := .SUGGESTING, lastImage := some "i" } false true true "i" (.ok []) (.ok ⟨"s1", "G", [], [⟨1, "do", none, none, none⟩]⟩)).2.2.mpr (by decide)⟩

/-- C5 counterexample: starting from a session carrying the elaboration
error message, a fully successful manual re-scan (analyze succeeds with
a suggestion, elaboration succeeds) leaves the error message in place —
no code path of `captureAndAnalyze` ever clears `errorMsg`. -/
theorem c5_rescan_does_not_clear_error_cex :
    (captureAndAnalyze { initialSession with appState := .SUGGESTING, stream := true, errorMsg := some autoGuideFailedMsg, lastImage := some "img", suggestions := [⟨"s1", "T", "1h", [], "d", 95⟩] } false true true "img2" (.ok [⟨"s2", "U", "2h", [], "e", 80⟩]) (.ok ⟨"s2", "G", [], [⟨1, "do", none, none, none⟩]⟩)).session.errorMsg = some autoGuideFailedMsg ∧
    some autoGuideFailedMsg ≠ (none : Option String) := by
  refine ⟨?_, by simp⟩
  rfl

/-- C5 (amended): an elaborate failure during the manual flow leaves the
just-fetched suggestions in place, transitions to `SUGGESTING`, and
sets a non-empty error message — in both the auto-elaboration branch of
`captureAndAnalyze` and in `handleSelectSuggestion`; a subsequent
successful manual re-scan leaves the error message unchanged (it is
cleared only when a new screen share is started). -/
theorem c5_elaborate_failure_manual_flow (s : Session) (img : String)
    (best : AutomationSuggestion) (rest : List AutomationSuggestion)
    (hflag : s.isAnalyzing = false) :
    ((captureAndAnalyze s false true true img (.ok (best :: rest)) (.error ())).session.suggestions = best :: rest ∧
     (captureAndAnalyze s false true true img (.ok (best :: rest)) (.error ())).session.appState = .SUGGESTING ∧
     (captureAndAnalyze s false true true img (.ok (best :: rest)) (.error ())).session.errorMsg = some autoGuideFailedMsg ∧
     autoGuideFailedMsg ≠ "") ∧
    (s.lastImage ≠ none →
      (handleSelectSuggestion s (.error ())).1.suggestions = s.suggestions ∧
      (handleSelectSuggestion s (.error ())).1.appState = .SUGGESTING ∧
      (handleSelectSuggestion s (.error ())).1.errorMsg = some guideFailedMsg ∧
      guideFailedMsg ≠ "") ∧
    (∀ g : DetailedGuide,
      (captureAndAnalyze s false true true img (.ok (best :: rest)) (.ok g)).session.errorMsg = s.errorMsg) ∧
    (∀ auto : Bool, (startScreenShareSuccess s auto).errorMsg = none) := by
  refine ⟨?_, fun hl => ?_, fun g => ?_, fun auto => ?_⟩
  · refine ⟨?_, ?_, ?_, by decide⟩ <;> simp [captureAndAnalyze, hflag]
  · rcases hli : s.lastImage with _ | i
    · exact absurd hli hl
    · refine ⟨?_, ?_, ?_, by decide⟩ <;> simp [handleSelectSuggestion, hli]
  · simp [captureAndAnalyze, hflag, preAnalyzeSession]
  · rfl

/-- C5 witness: a concrete manual scan whose elaboration fails keeps its
one fetched suggestion, lands in `SUGGESTING` with the non-empty
elaboration error message, and a following fully successful manual
re-scan still shows that same message. -/
theorem c5_elaborate_failure_manual_flow_witness :
    (captureAndAnalyze { initialSession with appState := .RECORDING, stream := true } false true true "img" (.ok [⟨"s1", "T", "1h", [], "d", 95⟩]) (.error ())).session.appState = AppState.SUGGESTING ∧
    (captureAndAnalyze { initialSession with appState := .RECORDING, stream := true } false true true "img" (.ok [⟨"s1", "T", "1h", [], "d", 95⟩]) (.error ())).session.errorMsg = some autoGuideFailedMsg ∧
    (captureAndAnalyze (captureAndAnalyze { initialSession with appState := .RECORDING, stream := true } false true true "img" (.ok [⟨"s1", "T", "1h", [], "d", 95⟩]) (.error ())).session false true true "img2" (.ok [⟨"s2", "U", "2h", [], "e", 80⟩]) (.ok ⟨"s2", "G", [], [⟨1, "do", none, none, none⟩]⟩)).session.errorMsg = some autoGuideFailedMsg := by
  refine ⟨((c5_elaborate_failure_manual_flow { initialSession with appState := .RECORDING, stream := true } "img" ⟨"s1", "T", "1h", [], "d", 95⟩ [] rfl).1).2.1,
    ((c5_elaborate_failure_manual_flow { initialSession with appState := .RECORDING, stream := true } "img" ⟨"s1", "T", "1h", [], "d", 95⟩ [] rfl).1).2.2.1,
    ?_⟩
  have h2 := (c5_elaborate_failure_manual_flow (captureAndAnalyze { initialSession with appState := .RECORDING, stream := true } false true true "img" (.ok [⟨"s1", "T", "1h", [], "d", 95⟩]) (.error ())).session "img2" ⟨"s2", "U", "2h", [], "e", 80⟩ [] (by decide)).2.2.1 ⟨"s2", "G", [], [⟨1, "do", none, none, none⟩]⟩
  rw [h2]
  exact ((c5_elaborate_failure_manual_flow { initialSession with appState := .RECORDING, stream := true } "img" ⟨"s1", "T", "1h", [], "d", 95⟩ [] rfl).1).2.2.1

/-- C4: every parsed analyze response is handed over as a permutation of
the parsed suggestions sorted descending by `relevanceScore`, and a
manual scan whose analysis returns at least one suggestion starts
elaboration exactly for the head of that sorted list, which carries a
maximal relevance score among all parsed suggestions. -/
theorem c4_sorted_descending_top_elaborated (l : List AutomationSuggestion)
    (t : String) (ht : t ≠ "") (s : Session) (img : String)
    (gr : Except Unit DetailedGuide) (hflag : s.isAnalyzing = false) :
    (analyzeScreenImageResult (some t) (some l)).Perm l ∧
    (analyzeScreenImageResult (some t) (some l)).Sorted suggestionOrder ∧
    (analyzeScreenImageResult (some t) (some l) ≠ [] →
      (captureAndAnalyze s false true true img
          (.ok (analyzeScreenImageResult (some t) (some l))) gr).elaborated =
        (analyzeScreenImageResult (some t) (some l)).head? ∧
      ∀ b ∈ (analyzeScreenImageResult (some t) (some l)).head?, ∀ x ∈ l,
        x.relevanceScore ≤ b.relevanceScore) := by
  have hres : analyzeScreenImageResult (some t) (some l) =
      List.insertionSort suggestionOrder l := by
    simp [analyzeScreenImageResult, ht]
  have hperm : (analyzeScreenImageResult (some t) (some l)).Perm l := by
    rw [hres]
    exact List.perm_insertionSort suggestionOrder l
  have hsorted : (analyzeScreenImageResult (some t) (some l)).Sorted suggestionOrder := by
    rw [hres]
    exact List.sorted_insertionSort suggestionOrder l
  refine ⟨hperm, hsorted, fun hne => ?_⟩
  rcases hr : analyzeScreenImageResult (some t) (some l) with _ | ⟨b, rest⟩
  · exact absurd hr hne
  rw [hr] at hsorted hperm
  constructor
  · rcases gr with _ | g <;> simp [captureAndAnalyze, hflag]
  · intro b2 hb2 x hx
    simp only [List.head?_cons, Option.mem_def, Option.some.injEq] at hb2
    subst hb2
    have hx2 := hperm.symm.subset hx
    rcases List.mem_cons.mp hx2 with h1 | h1
    · subst h1
      exact le_refl _
    · exact List.rel_of_sorted_cons hsorted x h1

/-- C4 witness: parsed scores `[40, 90, 70]` are stored as
`[90, 70, 40]` and the manual scan elaborates the score-90
suggestion. -/
theorem c4_sorted_descending_top_elaborated_witness :
    analyzeScreenImageResult (some "resp") (some [⟨"a", "A", "1h", [], "d", 40⟩, ⟨"b", "B", "1h", [], "d", 90⟩, ⟨"c", "C", "1h", [], "d", 70⟩]) = [⟨"b", "B", "1h", [], "d", 90⟩, ⟨"c", "C", "1h", [], "d", 70⟩, ⟨"a", "A", "1h", [], "d", 40⟩] ∧
    (captureAndAnalyze { initialSession with appState := .RECORDING, stream := true } false true true "img" (.ok (analyzeScreenImageResult (some "resp") (some [⟨"a", "A", "1h", [], "d", 40⟩, ⟨"b", "B", "1h", [], "d", 90⟩, ⟨"c", "C", "1h", [], "d", 70⟩]))) (.ok ⟨"b", "G", [], [⟨1, "do", none, none, none⟩]⟩)).elaborated = some ⟨"b", "B", "1h", [], "d", 90⟩ := by
  refine ⟨by decide, ?_⟩
  have h := (c4_sorted_descending_top_elaborated
    [⟨"a", "A", "1h", [], "d", 40⟩, ⟨"b", "B", "1h", [], "d", 90⟩, ⟨"c", "C", "1h", [], "d", 70⟩]
    "resp" (by decide) { initialSession with appState := .RECORDING, stream := true } "img"
    (.ok ⟨"b", "G", [], [⟨1, "do", none, none, none⟩]⟩) rfl).2.2 (by decide)
  rw [h.1]
  decide
